import Mathlib

/-!
Shallow embedding of `randrd` (src/main.rs): a one-shot reconciler that
diffs each connected monitor's current state against a declared desired
configuration and applies the minimal set of xrandr mutation calls.

Machine integers of the source (`u32` widths/heights, `i32` positions,
`u64` xids) are modelled as `Nat`/`Int`; the claims only compare them for
equality, so no wrap-around arithmetic occurs.  `f64` refresh rates are
modelled as `ℚ`: the rate logic is a single comparison `|r - rate| < 1.0`
on values far from overflow/rounding boundaries.
-/

namespace Randrd

/-- `xrandr::Rotation` (default `Normal`). -/
inductive Rotation
  | normal
  | left
  | inverted
  | right
deriving DecidableEq, Repr

/-- `xrandr::Mode`: a catalog entry with identity token and geometry. -/
structure Mode where
  xid : Nat
  width : Nat
  height : Nat
  rate : ℚ
deriving DecidableEq, Repr

/-- `MonitorSpec` from src/main.rs: desired config for one monitor. -/
structure MonitorSpec where
  width : Nat
  height : Nat
  refresh_rate : Option ℚ
  primary : Bool
  rotation : Rotation
  x : Int
  y : Int
deriving DecidableEq, Repr

/-- `MonitorSpec::REFRESH_RATE_TOLERANCE = 1.0`. -/
def REFRESH_RATE_TOLERANCE : ℚ := 1

/-- `MonitorSpec::get_compatible_modes`: filter the catalog to modes whose
`(width, height)` equal the spec's, then (when a refresh rate is requested)
to modes within `REFRESH_RATE_TOLERANCE` of it.  `Option::is_none_or`
lets every resolution-matching mode through when `refresh_rate` is `None`. -/
def MonitorSpec.get_compatible_modes (spec : MonitorSpec) (modes : List Mode) :
    List Mode :=
  (modes.filter
      (fun m => decide ((spec.width, spec.height) = (m.width, m.height)))).filter
    (fun m =>
      match spec.refresh_rate with
      | none => true
      | some r => decide (|r - m.rate| < REFRESH_RATE_TOLERANCE))

/-- `xrandr::Output`: connector with optional CRTC binding and optional
current mode identity. -/
structure Output where
  name : String
  crtc : Option Nat
  current_mode : Option Nat
deriving DecidableEq, Repr

/-- `xrandr::Monitor`: named display entity with its outputs. -/
structure Monitor where
  name : String
  is_primary : Bool
  outputs : List Output
deriving DecidableEq, Repr

/-- CRTC (controller) state returned by `ScreenResources::crtc`. -/
structure Crtc where
  rotation : Rotation
  x : Int
  y : Int
deriving DecidableEq, Repr

/-- `xrandr::ScreenResources`: the mode catalog plus the CRTC states the
live `ScreenResources::crtc(xhandle, id)` query would return, keyed by id. -/
structure ScreenResources where
  modes : List Mode
  crtcs : List (Nat × Crtc)
deriving DecidableEq, Repr

/-- `Config`: monitor name to desired config (a `HashMap` in the source,
modelled as an association list queried with `lookup`). -/
structure Config where
  monitors : List (String × MonitorSpec)
deriving DecidableEq, Repr

/-- The per-monitor failure cases of `get_monitor_diff`, one per `bail!` /
fallible call (the source carries these as `anyhow` message strings). -/
inductive DiffError
  | unconfigured
  | unsupportedTopology
  | noCrtc
  | crtcLookupFailed
  | noCompatibleMode
  | ambiguousMode
deriving DecidableEq, Repr

/-- `LimitedMode`: an `xrandr::Mode` whose `PartialEq` compares only the
inner mode's `height`. -/
structure LimitedMode where
  inner : Mode
deriving DecidableEq, Repr

/-- `LimitedMode`'s `PartialEq::eq`: `self.inner.height == other.inner.height`. -/
def LimitedMode.heightEq (a b : LimitedMode) : Bool :=
  a.inner.height == b.inner.height

/-- The sparse per-monitor `Diff` record. -/
structure Diff where
  primary : Option Bool
  position : Option (Int × Int)
  rotation : Option Rotation
  mode : Option LimitedMode
deriving DecidableEq, Repr

/-- `Diff::default()`: all four fields absent (the neutral value). -/
def Diff.neutral : Diff :=
  { primary := none, position := none, rotation := none, mode := none }

/-- `Option<LimitedMode>`'s derived `PartialEq`: `Some`s compare by
`LimitedMode`'s limited equality, `Some` never equals `None`. -/
def optLimitedEq : Option LimitedMode → Option LimitedMode → Bool
  | some a, some b => a.heightEq b
  | none, none => true
  | _, _ => false

/-- `Diff`'s derived `PartialEq`: field-wise, using `LimitedMode`'s
height-only equality for the `mode` field. -/
def Diff.partialEq (a b : Diff) : Bool :=
  decide (a.primary = b.primary) && decide (a.position = b.position) &&
    decide (a.rotation = b.rotation) && optLimitedEq a.mode b.mode

/-- The `is_some_and` membership test of src/main.rs line 121:
does the output's current mode id name one of the compatible modes? -/
def currentModeCompatible (current_mode : Option Nat) (compatible : List Mode) :
    Bool :=
  match current_mode with
  | some id => compatible.any (fun m => m.xid == id)
  | none => false

/-- `get_monitor_diff` from src/main.rs: look the monitor up in the config,
require exactly one output and a bound CRTC, diff rotation and position
against the CRTC state, then resolve the desired mode against the catalog.
The live `screen_resources.crtc(xhandle, crtc_id)` query is modelled by an
association-list lookup in `sr.crtcs`. -/
def get_monitor_diff (config : Config) (monitor : Monitor)
    (sr : ScreenResources) : Except DiffError (Output × Diff) :=
  match config.monitors.lookup monitor.name with
  | none => .error .unconfigured
  | some monitor_config =>
    match monitor.outputs with
    | [output] =>
      match output.crtc with
      | none => .error .noCrtc
      | some crtc_id =>
        match sr.crtcs.lookup crtc_id with
        | none => .error .crtcLookupFailed
        | some crtc =>
          let diff : Diff := Diff.neutral
          let diff : Diff :=
            if crtc.rotation ≠ monitor_config.rotation then
              { diff with rotation := some monitor_config.rotation }
            else diff
          let diff : Diff :=
            if (crtc.x, crtc.y) ≠ (monitor_config.x, monitor_config.y) then
              { diff with position := some (monitor_config.x, monitor_config.y) }
            else diff
          let compatible_modes := monitor_config.get_compatible_modes sr.modes
          if compatible_modes.isEmpty then .error .noCompatibleMode
          else if ¬ currentModeCompatible output.current_mode compatible_modes
          then
            match compatible_modes with
            | [compatible_mode] =>
              .ok (output, { diff with mode := some ⟨compatible_mode⟩ })
            | _ => .error .ambiguousMode
          else .ok (output, diff)
    | _ => .error .unsupportedTopology

/-- One adapter mutation call issued by `apply_monitor_diff`
(`xhandle.set_*` in the source; all target the one output in scope). -/
inductive Call
  | setPrimary
  | setAbsolutePosition (x y : Int)
  | setRotation (r : Rotation)
  | setMode (m : Mode)
deriving DecidableEq, Repr

/-- Whether each fallible adapter mutation succeeds (`set_primary` returns
`()` in the xrandr API, so it has no entry). -/
structure Adapter where
  posOk : Int → Int → Bool
  rotOk : Rotation → Bool
  modeOk : Mode → Bool

/-- How a run of `apply_monitor_diff` ends: normally, with a propagated
adapter error (`?`), or in the `unimplemented!()` panic. -/
inductive ApplyOutcome
  | ok
  | failed
  | panicked
deriving DecidableEq, Repr

/-- Last step of `apply_monitor_diff`: `if let Some(mode) = diff.mode {
xhandle.set_mode(output, &mode.inner)?; }`. -/
def applyModeStep (a : Adapter) (diff : Diff) (trace : List Call) :
    ApplyOutcome × List Call :=
  match diff.mode with
  | some mode =>
    if a.modeOk mode.inner then (.ok, trace ++ [Call.setMode mode.inner])
    else (.failed, trace ++ [Call.setMode mode.inner])
  | none => (.ok, trace)

/-- Third step of `apply_monitor_diff`: `if let Some(rotation) =
diff.rotation { xhandle.set_rotation(output, &rotation)?; }`. -/
def applyRotationStep (a : Adapter) (diff : Diff) (trace : List Call) :
    ApplyOutcome × List Call :=
  match diff.rotation with
  | some rotation =>
    if a.rotOk rotation then
      applyModeStep a diff (trace ++ [Call.setRotation rotation])
    else (.failed, trace ++ [Call.setRotation rotation])
  | none => applyModeStep a diff trace

/-- Second step of `apply_monitor_diff`: `if let Some((x, y)) =
diff.position { xhandle.set_absolute_position(output, x, y)?; }`. -/
def applyPositionStep (a : Adapter) (diff : Diff) (trace : List Call) :
    ApplyOutcome × List Call :=
  match diff.position with
  | some (x, y) =>
    if a.posOk x y then
      applyRotationStep a diff (trace ++ [Call.setAbsolutePosition x y])
    else (.failed, trace ++ [Call.setAbsolutePosition x y])
  | none => applyRotationStep a diff trace

/-- `apply_monitor_diff` from src/main.rs, instrumented with the list of
adapter calls it issues, in order.  `diff.primary` is handled first:
`Some(true)` calls `set_primary` (infallible in the xrandr API),
`Some(false)` hits `unimplemented!()` and panics before any call. -/
def apply_monitor_diff (a : Adapter) (diff : Diff) : ApplyOutcome × List Call :=
  match diff.primary with
  | some true => applyPositionStep a diff [Call.setPrimary]
  | some false => (.panicked, [])
  | none => applyPositionStep a diff []

/-- Simulated effect of a successful apply on an output: `set_mode` makes
the diff's mode current; an absent `diff.mode` leaves the mode unchanged. -/
def Output.applyDiff (o : Output) (diff : Diff) : Output :=
  { o with
    current_mode :=
      match diff.mode with
      | some m => some m.inner.xid
      | none => o.current_mode }

/-- Simulated effect of a successful apply on the CRTC driving the output:
`set_rotation` and `set_absolute_position` install the diff's values;
absent fields leave the CRTC unchanged. -/
def Crtc.applyDiff (c : Crtc) (diff : Diff) : Crtc :=
  { rotation :=
      match diff.rotation with
      | some r => r
      | none => c.rotation
    x :=
      match diff.position with
      | some (x, _) => x
      | none => c.x
    y :=
      match diff.position with
      | some (_, y) => y
      | none => c.y }

/-- Simulated post-apply monitor: every output updated (agrees with the
real system on the one-output monitors `get_monitor_diff` accepts). -/
def Monitor.applyDiff (m : Monitor) (diff : Diff) : Monitor :=
  { m with outputs := m.outputs.map (fun o => o.applyDiff diff) }

/-- Simulated post-apply screen resources: the CRTC bound to the applied
output is updated; the mode catalog and all other CRTCs are untouched. -/
def ScreenResources.applyDiff (sr : ScreenResources) (crtc_id : Nat)
    (diff : Diff) : ScreenResources :=
  { sr with
    crtcs := sr.crtcs.map
      (fun p => if p.1 = crtc_id then (p.1, p.2.applyDiff diff) else p) }

/-- Outcome recorded for one monitor that the reconciliation loop got past
(the loop prints one line for a diff failure or a non-neutral diff). -/
inductive MonitorOutcome
  | noChange
  | applied (trace : List Call)
  | diffFailed (e : DiffError)
deriving DecidableEq, Repr

/-- How the whole pass can abort: `apply_monitor_diff(..)?` in `main`
propagates an apply error out of the loop, and `unimplemented!()` panics. -/
inductive PassError
  | applyFailed
  | applyPanicked
deriving DecidableEq, Repr

/-- The reconciliation loop of `main` (src/main.rs lines 169-178): for each
monitor, compute the diff; a diff error is printed and the loop continues;
a neutral diff does nothing; a non-neutral diff is applied, and an apply
failure aborts the whole pass via `?`.  `.ok outcomes` models the loop
completing (process exits zero); `.error` models a non-zero exit. -/
def runLoop (a : Adapter) (config : Config) (sr : ScreenResources) :
    List Monitor → Except PassError (List (String × MonitorOutcome))
  | [] => .ok []
  | monitor :: rest =>
    match get_monitor_diff config monitor sr with
    | .error e =>
      (runLoop a config sr rest).map
        (fun outcomes => (monitor.name, MonitorOutcome.diffFailed e) :: outcomes)
    | .ok (_, diff) =>
      if Diff.partialEq diff Diff.neutral then
        (runLoop a config sr rest).map
          (fun outcomes => (monitor.name, MonitorOutcome.noChange) :: outcomes)
      else
        match apply_monitor_diff a diff with
        | (.ok, trace) =>
          (runLoop a config sr rest).map
            (fun outcomes =>
              (monitor.name, MonitorOutcome.applied trace) :: outcomes)
        | (.failed, _) => .error .applyFailed
        | (.panicked, _) => .error .applyPanicked

/-! ## Concrete fixtures

Small concrete instances used by witness and counterexample theorems. -/

/-- A 1920x1080@60 catalog mode. -/
def modeA : Mode := { xid := 1, width := 1920, height := 1080, rate := 60 }

/-- A second 1920x1080@60 catalog mode with a different identity. -/
def modeB : Mode := { xid := 2, width := 1920, height := 1080, rate := 60 }

/-- A 1280x720@60 catalog mode. -/
def modeC : Mode := { xid := 3, width := 1280, height := 720, rate := 60 }

/-- Desired config: 1920x1080, any rate, not primary, at the origin. -/
def specStd : MonitorSpec :=
  { width := 1920, height := 1080, refresh_rate := none, primary := false,
    rotation := .normal, x := 0, y := 0 }

/-- Same as `specStd` but requesting the primary flag. -/
def specPrim : MonitorSpec :=
  { width := 1920, height := 1080, refresh_rate := none, primary := true,
    rotation := .normal, x := 0, y := 0 }

/-- A CRTC already in the state `specStd` asks for. -/
def crtcStd : Crtc := { rotation := .normal, x := 0, y := 0 }

/-- A CRTC rotated left and moved away from the origin. -/
def crtcMoved : Crtc := { rotation := .left, x := 100, y := 50 }

/-- Output bound to CRTC 10, currently driving `modeA`. -/
def outStd : Output := { name := "DP-1", crtc := some 10, current_mode := some 1 }

/-- Output bound to CRTC 10, currently driving an unknown mode id. -/
def outStale : Output :=
  { name := "DP-1", crtc := some 10, current_mode := some 99 }

/-- A second output, for the multi-output monitor. -/
def outB : Output :=
  { name := "HDMI-1", crtc := some 11, current_mode := some 3 }

/-- A configured single-output monitor already in the desired state. -/
def monStd : Monitor := { name := "M1", is_primary := false, outputs := [outStd] }

/-- A configured single-output monitor whose mode/rotation/position differ. -/
def monStale : Monitor :=
  { name := "M1", is_primary := false, outputs := [outStale] }

/-- A configured monitor with two outputs. -/
def monTwo : Monitor :=
  { name := "M2", is_primary := false, outputs := [outStd, outB] }

/-- Config covering both sample monitors with `specStd`. -/
def cfgStd : Config := { monitors := [("M1", specStd), ("M2", specStd)] }

/-- Config asking for `M1` to be primary. -/
def cfgPrim : Config := { monitors := [("M1", specPrim)] }

/-- Screen with exactly one compatible mode and the already-correct CRTC. -/
def srOne : ScreenResources := { modes := [modeA], crtcs := [(10, crtcStd)] }

/-- Screen with two compatible modes and the already-correct CRTC. -/
def srTwo : ScreenResources :=
  { modes := [modeA, modeB], crtcs := [(10, crtcStd)] }

/-- Screen with one compatible mode and the rotated/moved CRTC. -/
def srMoved : ScreenResources := { modes := [modeA], crtcs := [(10, crtcMoved)] }

/-- An adapter that accepts every mutation. -/
def allOk : Adapter :=
  { posOk := fun _ _ => true, rotOk := fun _ => true, modeOk := fun _ => true }

/-- An adapter that rejects every fallible mutation. -/
def rejectAll : Adapter :=
  { posOk := fun _ _ => false, rotOk := fun _ => false,
    modeOk := fun _ => false }

/-- The diff `get_monitor_diff` computes for `monStale` against `srMoved`. -/
def dMoved : Diff :=
  { primary := none, position := some (0, 0), rotation := some .normal,
    mode := some ⟨modeA⟩ }

/-! ## Helper lemmas -/

/-- Updating the value stored under `cid` commutes with `lookup`. -/
theorem lookup_map_update (l : List (Nat × Crtc)) (cid : Nat) (g : Crtc → Crtc) :
    (l.map (fun p => if p.1 = cid then (p.1, g p.2) else p)).lookup cid =
      (l.lookup cid).map g := by
  induction l with
  | nil => rfl
  | cons hd tl ih =>
    obtain ⟨k, v⟩ := hd
    by_cases hk : k = cid
    · subst hk
      rw [List.map_cons, if_pos rfl]
      simp [List.lookup]
    · have hbeq : (cid == k) = false := beq_eq_false_iff_ne.mpr (Ne.symm hk)
      rw [List.map_cons]
      simp only [if_neg hk]
      rw [List.lookup, List.lookup, hbeq]
      exact ih

/-- Inversion: everything a successful `get_monitor_diff` run tells us about
its input and the diff it built. -/
theorem get_monitor_diff_ok_inv (config : Config) (monitor : Monitor)
    (sr : ScreenResources) (out : Output) (diff : Diff)
    (h : get_monitor_diff config monitor sr = .ok (out, diff)) :
    ∃ spec crtc_id crtc,
      config.monitors.lookup monitor.name = some spec ∧
      monitor.outputs = [out] ∧
      out.crtc = some crtc_id ∧
      sr.crtcs.lookup crtc_id = some crtc ∧
      diff.primary = none ∧
      diff.rotation =
        (if crtc.rotation ≠ spec.rotation then some spec.rotation else none) ∧
      diff.position =
        (if (crtc.x, crtc.y) ≠ (spec.x, spec.y) then some (spec.x, spec.y)
         else none) ∧
      spec.get_compatible_modes sr.modes ≠ [] ∧
      ((currentModeCompatible out.current_mode
          (spec.get_compatible_modes sr.modes) = true ∧ diff.mode = none) ∨
       (currentModeCompatible out.current_mode
          (spec.get_compatible_modes sr.modes) = false ∧
        ∃ m, spec.get_compatible_modes sr.modes = [m] ∧ diff.mode = some ⟨m⟩)) := by
  unfold get_monitor_diff at h
  split at h
  · exact absurd h (by simp)
  case _ spec hc =>
  split at h
  case _ output ho =>
    split at h
    · exact absurd h (by simp)
    case _ crtc_id hcrtc =>
    split at h
    · exact absurd h (by simp)
    case _ crtc hlk =>
    simp only [] at h
    split at h
    · exact absurd h (by simp)
    case _ hne =>
    have hne' : spec.get_compatible_modes sr.modes ≠ [] := by
      simpa [List.isEmpty_iff] using hne
    split at h
    case _ hnc =>
      split at h
      case _ m hm =>
        simp only [Except.ok.injEq, Prod.mk.injEq] at h
        obtain ⟨hout, hdiff⟩ := h
        subst hout
        subst hdiff
        refine ⟨spec, crtc_id, crtc, hc, ho, hcrtc, hlk, ?_, ?_, ?_, hne', ?_⟩
        · simp [apply_ite (f := Diff.primary), Diff.neutral]
        · simp [apply_ite (f := Diff.rotation), Diff.neutral]
        · simp [apply_ite (f := Diff.position), Diff.neutral]
        · refine Or.inr ⟨by simpa using hnc, m, hm, ?_⟩
          simp
      · exact absurd h (by simp)
    case _ hcc =>
      simp only [Except.ok.injEq, Prod.mk.injEq] at h
      obtain ⟨hout, hdiff⟩ := h
      subst hout
      subst hdiff
      refine ⟨spec, crtc_id, crtc, hc, ho, hcrtc, hlk, ?_, ?_, ?_, hne', ?_⟩
      · simp [apply_ite (f := Diff.primary), Diff.neutral]
      · simp [apply_ite (f := Diff.rotation), Diff.neutral]
      · simp [apply_ite (f := Diff.position), Diff.neutral]
      · refine Or.inl ⟨by simpa using hcc, ?_⟩
        simp [apply_ite (f := Diff.mode), Diff.neutral]
  · exact absurd h (by simp)

/-- A current mode is never "compatible" against an empty compatible list. -/
theorem currentModeCompatible_nil (cm : Option Nat) :
    currentModeCompatible cm [] = false := by
  cases cm <;> simp [currentModeCompatible]

/-! ## Claim theorems -/

/-- C4: `get_compatible_modes` returns exactly the order-preserving
subsequence of the catalog whose modes match the spec's width and height;
with `refresh_rate = none` no further filtering occurs, and with
`refresh_rate = some r` a mode is kept iff `|r - rate| < 1`; the function
never reorders. -/
theorem get_compatible_modes_correct (spec : MonitorSpec) (catalog : List Mode) :
    (spec.get_compatible_modes catalog).Sublist catalog ∧
    spec.get_compatible_modes catalog =
      catalog.filter (fun m =>
        decide ((spec.width, spec.height) = (m.width, m.height)) &&
          (match spec.refresh_rate with
           | none => true
           | some r => decide (|r - m.rate| < REFRESH_RATE_TOLERANCE))) ∧
    (spec.refresh_rate = none →
      spec.get_compatible_modes catalog =
        catalog.filter
          (fun m => decide ((spec.width, spec.height) = (m.width, m.height)))) ∧
    (∀ r, spec.refresh_rate = some r →
      ∀ m, m ∈ spec.get_compatible_modes catalog ↔
        m ∈ catalog ∧ (spec.width, spec.height) = (m.width, m.height) ∧
          |r - m.rate| < 1) := by
  have hfilter : spec.get_compatible_modes catalog =
      catalog.filter (fun m =>
        decide ((spec.width, spec.height) = (m.width, m.height)) &&
          (match spec.refresh_rate with
           | none => true
           | some r => decide (|r - m.rate| < REFRESH_RATE_TOLERANCE))) := by
    unfold MonitorSpec.get_compatible_modes
    rw [List.filter_filter]
    refine List.filter_congr (fun m _ => ?_)
    exact Bool.and_comm _ _
  refine ⟨?_, hfilter, ?_, ?_⟩
  · unfold MonitorSpec.get_compatible_modes
    exact (List.filter_sublist _).trans (List.filter_sublist _)
  · intro hr
    rw [hfilter, hr]
    simp
  · intro r hr m
    rw [hfilter, List.mem_filter, hr]
    simp [REFRESH_RATE_TOLERANCE]

/-- C4 witness: a concrete catalog filtered by a concrete spec, obtained by
instantiating `get_compatible_modes_correct` and discharging its inner
hypotheses. -/
theorem get_compatible_modes_correct_witness :
    ({ width := 1920, height := 1080, refresh_rate := none, primary := false,
       rotation := .normal, x := 0, y := 0 } :
        MonitorSpec).get_compatible_modes
      [{ xid := 1, width := 1920, height := 1080, rate := 60 },
       { xid := 2, width := 1280, height := 720, rate := 60 }] =
    [{ xid := 1, width := 1920, height := 1080, rate := 60 }] := by
  rw [(get_compatible_modes_correct
    { width := 1920, height := 1080, refresh_rate := none, primary := false,
      rotation := .normal, x := 0, y := 0 }
    [{ xid := 1, width := 1920, height := 1080, rate := 60 },
     { xid := 2, width := 1280, height := 720, rate := 60 }]).2.2.1 rfl]
  rfl

/-- C7: a configured monitor whose outputs list does not have exactly one
element (zero, or two or more) makes `get_monitor_diff` fail with
`UnsupportedTopology`; it never produces a diff. -/
theorem not_one_output_unsupported (config : Config) (monitor : Monitor)
    (sr : ScreenResources) (spec : MonitorSpec)
    (hc : config.monitors.lookup monitor.name = some spec)
    (h1 : monitor.outputs.length ≠ 1) :
    get_monitor_diff config monitor sr = .error .unsupportedTopology := by
  unfold get_monitor_diff
  rw [hc]
  match ho : monitor.outputs with
  | [] => rfl
  | [o] => exact absurd (by rw [ho]; rfl) h1
  | o1 :: o2 :: t => rfl

/-- C7 witness: the two-output monitor `monTwo` is rejected. -/
theorem not_one_output_unsupported_witness :
    get_monitor_diff cfgStd monTwo srOne = .error .unsupportedTopology :=
  not_one_output_unsupported cfgStd monTwo srOne specStd rfl (by decide)

/-- C6: a configured, CRTC-bound monitor whose current mode identity is
among the compatible modes gets a diff with `mode` absent, even when
several compatible modes exist. -/
theorem current_mode_already_compatible (config : Config) (monitor : Monitor)
    (sr : ScreenResources) (spec : MonitorSpec) (output : Output)
    (crtc_id : Nat) (crtc : Crtc)
    (hc : config.monitors.lookup monitor.name = some spec)
    (ho : monitor.outputs = [output])
    (hcr : output.crtc = some crtc_id)
    (hlk : sr.crtcs.lookup crtc_id = some crtc)
    (hmem : currentModeCompatible output.current_mode
      (spec.get_compatible_modes sr.modes) = true) :
    ∃ diff, get_monitor_diff config monitor sr = .ok (output, diff) ∧
      diff.mode = none := by
  have hne : (spec.get_compatible_modes sr.modes).isEmpty = false := by
    rcases hq : spec.get_compatible_modes sr.modes with _ | ⟨m, t⟩
    · rw [hq, currentModeCompatible_nil] at hmem
      exact absurd hmem (by simp)
    · rfl
  unfold get_monitor_diff
  simp only [hc, ho, hcr, hlk, hne, hmem, Bool.false_eq_true, if_false,
    not_true, Bool.not_true]
  refine ⟨_, rfl, ?_⟩
  simp [apply_ite (f := Diff.mode), Diff.neutral]

/-- C6 witness: `monStd` currently drives one of the two compatible modes
of `srTwo`, so no mode switch is forced. -/
theorem current_mode_already_compatible_witness :
    ∃ diff, get_monitor_diff cfgStd monStd srTwo = .ok (outStd, diff) ∧
      diff.mode = none :=
  current_mode_already_compatible cfgStd monStd srTwo specStd outStd 10
    crtcStd rfl rfl rfl rfl rfl

/-- C5: for a configured, CRTC-bound monitor whose current mode is not
among the compatible modes: an empty compatible set fails with
`NoCompatibleMode`, a singleton is put into `diff.mode`, and two or more
compatible modes fail with `AmbiguousMode` (never an arbitrary pick). -/
theorem mode_resolution (config : Config) (monitor : Monitor)
    (sr : ScreenResources) (spec : MonitorSpec) (output : Output)
    (crtc_id : Nat) (crtc : Crtc)
    (hc : config.monitors.lookup monitor.name = some spec)
    (ho : monitor.outputs = [output])
    (hcr : output.crtc = some crtc_id)
    (hlk : sr.crtcs.lookup crtc_id = some crtc)
    (hmem : currentModeCompatible output.current_mode
      (spec.get_compatible_modes sr.modes) = false) :
    (spec.get_compatible_modes sr.modes = [] →
      get_monitor_diff config monitor sr = .error .noCompatibleMode) ∧
    (∀ m, spec.get_compatible_modes sr.modes = [m] →
      ∃ diff, get_monitor_diff config monitor sr = .ok (output, diff) ∧
        diff.mode = some ⟨m⟩) ∧
    (2 ≤ (spec.get_compatible_modes sr.modes).length →
      get_monitor_diff config monitor sr = .error .ambiguousMode) := by
  refine ⟨?_, ?_, ?_⟩
  · intro hq
    unfold get_monitor_diff
    simp only [hc, ho, hcr, hlk, hq]
    rfl
  · intro m hq
    rw [hq] at hmem
    unfold get_monitor_diff
    simp only [hc, ho, hcr, hlk, hq, hmem, List.isEmpty_cons,
      Bool.false_eq_true, if_false, not_false_iff, if_true]
    refine ⟨_, rfl, ?_⟩
    simp [apply_ite (f := Diff.mode), Diff.neutral]
  · intro hlen
    rcases hq : spec.get_compatible_modes sr.modes with _ | ⟨m1, _ | ⟨m2, t⟩⟩
    · rw [hq] at hlen; simp at hlen
    · rw [hq] at hlen; simp at hlen
    · rw [hq] at hmem
      unfold get_monitor_diff
      simp only [hc, ho, hcr, hlk, hq, hmem, List.isEmpty_cons,
        Bool.false_eq_true, if_false, not_false_iff, if_true]

/-- C5 witness: `monStale` drives an unknown mode; the single compatible
mode of `srMoved` is selected into `diff.mode`. -/
theorem mode_resolution_witness :
    ∃ diff, get_monitor_diff cfgStd monStale srMoved = .ok (outStale, diff) ∧
      diff.mode = some ⟨modeA⟩ :=
  (mode_resolution cfgStd monStale srMoved specStd outStale 10 crtcMoved
    rfl rfl rfl rfl rfl).2.1 modeA rfl

/-- The mode step never panics and only ever appends `setMode` calls. -/
theorem applyModeStep_calls (a : Adapter) (d : Diff) (t : List Call) :
    (applyModeStep a d t).1 ≠ ApplyOutcome.panicked ∧
    ∀ c ∈ (applyModeStep a d t).2, c ∈ t ∨ c ≠ Call.setPrimary := by
  unfold applyModeStep
  split
  case _ m =>
    split <;>
      refine ⟨by simp, fun c hc => ?_⟩ <;>
      simp only at hc <;>
      rcases List.mem_append.mp hc with h | h
    · exact Or.inl h
    · simp only [List.mem_singleton] at h
      subst h
      exact Or.inr (by simp)
    · exact Or.inl h
    · simp only [List.mem_singleton] at h
      subst h
      exact Or.inr (by simp)
  case _ => exact ⟨by simp, fun c hc => Or.inl hc⟩

/-- The rotation step never panics and never adds a `setPrimary` call. -/
theorem applyRotationStep_calls (a : Adapter) (d : Diff) (t : List Call) :
    (applyRotationStep a d t).1 ≠ ApplyOutcome.panicked ∧
    ∀ c ∈ (applyRotationStep a d t).2, c ∈ t ∨ c ≠ Call.setPrimary := by
  unfold applyRotationStep
  split
  case _ r =>
    split
    · refine ⟨(applyModeStep_calls a d _).1, fun c hc => ?_⟩
      rcases (applyModeStep_calls a d _).2 c hc with h | h
      · rcases List.mem_append.mp h with h2 | h2
        · exact Or.inl h2
        · simp only [List.mem_singleton] at h2
          subst h2
          exact Or.inr (by simp)
      · exact Or.inr h
    · refine ⟨by simp, fun c hc => ?_⟩
      simp only at hc
      rcases List.mem_append.mp hc with h | h
      · exact Or.inl h
      · simp only [List.mem_singleton] at h
        subst h
        exact Or.inr (by simp)
  case _ => exact applyModeStep_calls a d t

/-- The position step never panics and never adds a `setPrimary` call. -/
theorem applyPositionStep_calls (a : Adapter) (d : Diff) (t : List Call) :
    (applyPositionStep a d t).1 ≠ ApplyOutcome.panicked ∧
    ∀ c ∈ (applyPositionStep a d t).2, c ∈ t ∨ c ≠ Call.setPrimary := by
  unfold applyPositionStep
  split
  case _ x y =>
    split
    · refine ⟨(applyRotationStep_calls a d _).1, fun c hc => ?_⟩
      rcases (applyRotationStep_calls a d _).2 c hc with h | h
      · rcases List.mem_append.mp h with h2 | h2
        · exact Or.inl h2
        · simp only [List.mem_singleton] at h2
          subst h2
          exact Or.inr (by simp)
      · exact Or.inr h
    · refine ⟨by simp, fun c hc => ?_⟩
      simp only at hc
      rcases List.mem_append.mp hc with h | h
      · exact Or.inl h
      · simp only [List.mem_singleton] at h
        subst h
        exact Or.inr (by simp)
  case _ => exact applyRotationStep_calls a d t

/-- Applying a diff whose `primary` field is absent cannot panic and never
issues a `set_primary` call. -/
theorem apply_no_primary_calls (a : Adapter) (d : Diff)
    (hp : d.primary = none) :
    (apply_monitor_diff a d).1 ≠ ApplyOutcome.panicked ∧
    Call.setPrimary ∉ (apply_monitor_diff a d).2 := by
  unfold apply_monitor_diff
  rw [hp]
  refine ⟨(applyPositionStep_calls a d []).1, fun hmem => ?_⟩
  rcases (applyPositionStep_calls a d []).2 _ hmem with h | h
  · simp at h
  · exact h rfl

/-- C10: every diff returned by `get_monitor_diff` has `primary` absent,
so applying it never calls `set_primary` and the `unimplemented!()` branch
for `primary = Some(false)` is unreachable. -/
theorem diff_primary_none_safe (config : Config) (monitor : Monitor)
    (sr : ScreenResources) (out : Output) (diff : Diff)
    (h : get_monitor_diff config monitor sr = .ok (out, diff)) :
    diff.primary = none ∧
    ∀ a : Adapter, (apply_monitor_diff a diff).1 ≠ ApplyOutcome.panicked ∧
      Call.setPrimary ∉ (apply_monitor_diff a diff).2 := by
  obtain ⟨spec, cid, crtc, _, _, _, _, hp, _⟩ :=
    get_monitor_diff_ok_inv _ _ _ _ _ h
  exact ⟨hp, fun a => apply_no_primary_calls a diff hp⟩

/-- C10 witness: instantiated on the already-converged monitor `monStd`. -/
theorem diff_primary_none_safe_witness :
    Diff.neutral.primary = none ∧
    (apply_monitor_diff allOk Diff.neutral).1 ≠ ApplyOutcome.panicked ∧
    Call.setPrimary ∉ (apply_monitor_diff allOk Diff.neutral).2 := by
  obtain ⟨h1, h2⟩ := diff_primary_none_safe cfgStd monStd srOne outStd
    Diff.neutral rfl
  exact ⟨h1, (h2 allOk).1, (h2 allOk).2⟩

/-- C2 counterexample: `specPrim` requests `primary = true` and `monStd` is
not primary, yet the returned diff has `primary` absent (not `some true`
as the claim requires). -/
theorem primary_promotion_counterexample :
    specPrim.primary = true ∧ monStd.is_primary = false ∧
    cfgPrim.monitors.lookup monStd.name = some specPrim ∧
    get_monitor_diff cfgPrim monStd srOne = .ok (outStd, Diff.neutral) ∧
    Diff.neutral.primary = none :=
  ⟨rfl, rfl, rfl, rfl, rfl⟩

/-- C2 amended: the diff computer never sets `diff.primary` at all —
the field is absent in every returned diff, whatever the spec's `primary`
and the monitor's current primary state; in particular it never demotes. -/
theorem get_monitor_diff_never_sets_primary (config : Config)
    (monitor : Monitor) (sr : ScreenResources) (out : Output) (diff : Diff)
    (h : get_monitor_diff config monitor sr = .ok (out, diff)) :
    diff.primary = none := by
  obtain ⟨spec, cid, crtc, _, _, _, _, hp, _⟩ :=
    get_monitor_diff_ok_inv _ _ _ _ _ h
  exact hp

/-- C2 amended witness: a monitor with a non-trivial diff still gets
`primary = none`, though its config requests primary. -/
theorem get_monitor_diff_never_sets_primary_witness :
    get_monitor_diff cfgPrim monStale srMoved = .ok (outStale, dMoved) ∧
    dMoved.primary = none :=
  ⟨rfl, get_monitor_diff_never_sets_primary cfgPrim monStale srMoved outStale
    dMoved rfl⟩

/-- C9: a Diff equals `Diff::default()` under the derived `PartialEq` iff
all four fields are absent; `LimitedMode`'s height-only equality never
makes a diff carrying `Some(mode)` neutral; and the reconciliation loop
invokes `apply_monitor_diff` exactly when the computed diff differs from
the neutral value. -/
theorem diff_neutral_iff_and_loop_gate :
    (∀ d : Diff, Diff.partialEq d Diff.neutral = true ↔
      d.primary = none ∧ d.position = none ∧ d.rotation = none ∧
        d.mode = none) ∧
    (∀ (d : Diff) (m : LimitedMode), d.mode = some m →
      Diff.partialEq d Diff.neutral = false) ∧
    (∀ (a : Adapter) (config : Config) (sr : ScreenResources)
        (monitor : Monitor) (rest : List Monitor) (out : Output) (d : Diff),
      get_monitor_diff config monitor sr = .ok (out, d) →
      (Diff.partialEq d Diff.neutral = true →
        runLoop a config sr (monitor :: rest) =
          (runLoop a config sr rest).map
            (fun outcomes =>
              (monitor.name, MonitorOutcome.noChange) :: outcomes)) ∧
      (Diff.partialEq d Diff.neutral = false →
        runLoop a config sr (monitor :: rest) =
          match apply_monitor_diff a d with
          | (.ok, trace) =>
            (runLoop a config sr rest).map
              (fun outcomes =>
                (monitor.name, MonitorOutcome.applied trace) :: outcomes)
          | (.failed, _) => .error .applyFailed
          | (.panicked, _) => .error .applyPanicked)) := by
  refine ⟨?_, ?_, ?_⟩
  · intro d
    obtain ⟨p, pos, rot, mode⟩ := d
    cases mode <;> simp [Diff.partialEq, Diff.neutral, optLimitedEq, and_assoc]
  · intro d m hm
    obtain ⟨p, pos, rot, mode⟩ := d
    simp only at hm
    subst hm
    simp [Diff.partialEq, Diff.neutral, optLimitedEq]
  · intro a config sr monitor rest out d h
    constructor
    · intro hneu
      simp only [runLoop, h, hneu, if_true]
    · intro hneu
      simp only [runLoop, h, hneu, Bool.false_eq_true, if_false]

/-- C9 witness: the neutral diff is neutral, a mode-carrying diff is not,
and the loop records `NoChange` for a converged monitor. -/
theorem diff_neutral_iff_and_loop_gate_witness :
    Diff.partialEq Diff.neutral Diff.neutral = true ∧
    Diff.partialEq dMoved Diff.neutral = false ∧
    runLoop allOk cfgStd srOne [monStd] =
      .ok [("M1", MonitorOutcome.noChange)] := by
  refine ⟨?_, ?_, ?_⟩
  · exact (diff_neutral_iff_and_loop_gate.1 Diff.neutral).mpr
      ⟨rfl, rfl, rfl, rfl⟩
  · exact diff_neutral_iff_and_loop_gate.2.1 dMoved ⟨modeA⟩ rfl
  · rw [(diff_neutral_iff_and_loop_gate.2.2 allOk cfgStd srOne monStd []
      outStd Diff.neutral rfl).1 rfl]
    rfl

/-- C1 counterexample: a non-neutral diff whose apply fails makes the whole
pass return an error (non-zero exit); the second monitor is never
processed, contradicting "loop continues and exits zero". -/
theorem loop_abort_counterexample :
    Diff.partialEq dMoved Diff.neutral = false ∧
    get_monitor_diff cfgStd monStale srMoved = .ok (outStale, dMoved) ∧
    (apply_monitor_diff rejectAll dMoved).1 = ApplyOutcome.failed ∧
    runLoop rejectAll cfgStd srMoved [monStale, monTwo] =
      .error PassError.applyFailed :=
  ⟨rfl, rfl, rfl, rfl⟩

/-- C1 amended: a diff-computation failure is reported as that monitor's
outcome and the loop continues; but a failure while applying a non-neutral
diff propagates out of the loop, skipping all remaining monitors and
ending the pass with a non-zero exit. -/
theorem loop_diff_error_continues_apply_error_aborts :
    (∀ (a : Adapter) (config : Config) (sr : ScreenResources)
        (monitor : Monitor) (rest : List Monitor) (e : DiffError),
      get_monitor_diff config monitor sr = .error e →
      runLoop a config sr (monitor :: rest) =
        (runLoop a config sr rest).map
          (fun outcomes =>
            (monitor.name, MonitorOutcome.diffFailed e) :: outcomes)) ∧
    (∀ (a : Adapter) (config : Config) (sr : ScreenResources)
        (monitor : Monitor) (rest : List Monitor) (out : Output) (d : Diff),
      get_monitor_diff config monitor sr = .ok (out, d) →
      Diff.partialEq d Diff.neutral = false →
      (apply_monitor_diff a d).1 = ApplyOutcome.failed →
      runLoop a config sr (monitor :: rest) = .error .applyFailed) := by
  constructor
  · intro a config sr monitor rest e h
    simp only [runLoop, h]
  · intro a config sr monitor rest out d h hneu happly
    simp only [runLoop, h, hneu, Bool.false_eq_true, if_false]
    rcases hap : apply_monitor_diff a d with ⟨o, tr⟩
    rw [hap] at happly
    simp only at happly
    subst happly
    rfl

/-- C1 amended witness: a skipped monitor leaves the pass healthy, while a
rejected apply aborts it. -/
theorem loop_diff_error_continues_apply_error_aborts_witness :
    runLoop allOk cfgStd srOne [monTwo] =
      .ok [("M2", MonitorOutcome.diffFailed DiffError.unsupportedTopology)] ∧
    runLoop rejectAll cfgStd srMoved [monStale] =
      .error PassError.applyFailed := by
  constructor
  · rw [loop_diff_error_continues_apply_error_aborts.1 allOk cfgStd srOne
      monTwo [] DiffError.unsupportedTopology rfl]
    rfl
  · exact loop_diff_error_continues_apply_error_aborts.2 rejectAll cfgStd
      srMoved monStale [] outStale dMoved rfl rfl rfl

/-- C8: `apply_monitor_diff` issues its calls in the fixed order primary,
position, rotation, mode (the emitted trace is a prefix of that canonical
sequence, and equals it on success), and makes no call at all for any
absent field. -/
theorem apply_fixed_order_sparse (a : Adapter) (d : Diff) :
    ((apply_monitor_diff a d).2 <+:
      ((match d.primary with
        | some true => [Call.setPrimary]
        | _ => ([] : List Call)) ++
       (match d.position with
        | some (x, y) => [Call.setAbsolutePosition x y]
        | none => []) ++
       (match d.rotation with
        | some r => [Call.setRotation r]
        | none => []) ++
       (match d.mode with
        | some m => [Call.setMode m.inner]
        | none => []))) ∧
    ((apply_monitor_diff a d).1 = ApplyOutcome.ok →
      (apply_monitor_diff a d).2 =
        ((match d.primary with
          | some true => [Call.setPrimary]
          | _ => ([] : List Call)) ++
         (match d.position with
          | some (x, y) => [Call.setAbsolutePosition x y]
          | none => []) ++
         (match d.rotation with
          | some r => [Call.setRotation r]
          | none => []) ++
         (match d.mode with
          | some m => [Call.setMode m.inner]
          | none => []))) ∧
    (d.primary = none → Call.setPrimary ∉ (apply_monitor_diff a d).2) ∧
    (d.position = none →
      ∀ x y, Call.setAbsolutePosition x y ∉ (apply_monitor_diff a d).2) ∧
    (d.rotation = none →
      ∀ r, Call.setRotation r ∉ (apply_monitor_diff a d).2) ∧
    (d.mode = none → ∀ m, Call.setMode m ∉ (apply_monitor_diff a d).2) := by
  obtain ⟨p, pos, rot, mode⟩ := d
  rcases p with _ | b
  all_goals try cases b
  all_goals rcases pos with _ | ⟨x, y⟩
  all_goals rcases rot with _ | r
  all_goals rcases mode with _ | m
  all_goals
    simp only [apply_monitor_diff, applyPositionStep, applyRotationStep,
      applyModeStep]
  all_goals first
  | (split_ifs <;> simp_all [List.IsPrefix])
  | simp_all [List.IsPrefix]

/-- C8 witness: the full trace for `dMoved` under an accepting adapter, in
the canonical order, with no `setPrimary` call. -/
theorem apply_fixed_order_sparse_witness :
    (apply_monitor_diff allOk dMoved).2 =
      [Call.setAbsolutePosition 0 0, Call.setRotation .normal,
       Call.setMode modeA] ∧
    Call.setPrimary ∉ (apply_monitor_diff allOk dMoved).2 := by
  constructor
  · rw [(apply_fixed_order_sparse allOk dMoved).2.1 rfl]
    rfl
  · exact (apply_fixed_order_sparse allOk dMoved).2.2.1 rfl

/-- C3: if `get_monitor_diff` returns a non-neutral diff and applying it
succeeds, recomputing the diff against the simulated post-apply state
(mode, rotation and position updated to the applied values) yields the
neutral diff with all fields absent. -/
theorem diff_idempotent (config : Config) (monitor : Monitor)
    (sr : ScreenResources) (a : Adapter) (out : Output) (diff : Diff)
    (crtc_id : Nat)
    (h : get_monitor_diff config monitor sr = .ok (out, diff))
    (_hnz : Diff.partialEq diff Diff.neutral = false)
    (hcr : out.crtc = some crtc_id)
    (_happly : (apply_monitor_diff a diff).1 = ApplyOutcome.ok) :
    get_monitor_diff config (monitor.applyDiff diff)
      (sr.applyDiff crtc_id diff) =
      .ok (out.applyDiff diff, Diff.neutral) := by
  obtain ⟨spec, cid, crtc, hc, ho, hcr2, hlk, hp, hrot, hpos, hne, hmode⟩ :=
    get_monitor_diff_ok_inv _ _ _ _ _ h
  have hcid : cid = crtc_id := by
    rw [hcr] at hcr2
    exact (Option.some_inj.mp hcr2).symm
  subst hcid
  have hname : (monitor.applyDiff diff).name = monitor.name := rfl
  have houts : (monitor.applyDiff diff).outputs = [out.applyDiff diff] := by
    unfold Monitor.applyDiff
    rw [ho]
    rfl
  have hcrtc3 : (out.applyDiff diff).crtc = some cid := hcr2
  have hlk2 : ((sr.applyDiff cid diff).crtcs).lookup cid =
      some (crtc.applyDiff diff) := by
    unfold ScreenResources.applyDiff
    rw [lookup_map_update sr.crtcs cid (fun c => c.applyDiff diff), hlk]
    rfl
  have hmodes : (sr.applyDiff cid diff).modes = sr.modes := rfl
  have hrotEq : (crtc.applyDiff diff).rotation = spec.rotation := by
    rcases hd : diff.rotation with _ | r
    · rw [hd] at hrot
      have hR : ¬ crtc.rotation ≠ spec.rotation := by
        intro hR2
        rw [if_pos hR2] at hrot
        cases hrot
      simp [Crtc.applyDiff, hd, not_not.mp hR]
    · rw [hd] at hrot
      have hR : crtc.rotation ≠ spec.rotation := by
        by_contra hR2
        rw [if_neg (not_not_intro hR2)] at hrot
        cases hrot
      rw [if_pos hR] at hrot
      have hr2 : r = spec.rotation := by
        injection hrot
      simp [Crtc.applyDiff, hd, hr2]
  have hposEq : ((crtc.applyDiff diff).x, (crtc.applyDiff diff).y) =
      (spec.x, spec.y) := by
    rcases hd : diff.position with _ | ⟨px, py⟩
    · rw [hd] at hpos
      have hP : ¬ (crtc.x, crtc.y) ≠ (spec.x, spec.y) := by
        intro hP2
        rw [if_pos hP2] at hpos
        cases hpos
      simp only [Crtc.applyDiff, hd]
      exact not_not.mp hP
    · rw [hd] at hpos
      have hP : (crtc.x, crtc.y) ≠ (spec.x, spec.y) := by
        by_contra hP2
        rw [if_neg (not_not_intro hP2)] at hpos
        cases hpos
      rw [if_pos hP] at hpos
      have hp2 : px = spec.x ∧ py = spec.y := by
        have hq := hpos
        simp only [Option.some.injEq, Prod.mk.injEq] at hq
        exact hq
      simp [Crtc.applyDiff, hd, hp2.1, hp2.2]
  have hneb : (spec.get_compatible_modes sr.modes).isEmpty = false := by
    rcases hq : spec.get_compatible_modes sr.modes with _ | ⟨mm, t⟩
    · exact absurd hq hne
    · rfl
  have hmem2 : currentModeCompatible (out.applyDiff diff).current_mode
      (spec.get_compatible_modes sr.modes) = true := by
    rcases hmode with ⟨hcc, hmn⟩ | ⟨hcc, m, hm, hms⟩
    · have hcur : (out.applyDiff diff).current_mode = out.current_mode := by
        simp [Output.applyDiff, hmn]
      rw [hcur]
      exact hcc
    · have hcur : (out.applyDiff diff).current_mode = some m.xid := by
        simp [Output.applyDiff, hms]
      rw [hcur, hm]
      simp [currentModeCompatible]
  unfold get_monitor_diff
  simp only [hname, hc, houts, hcrtc3, hlk2, hmodes, hneb, hmem2,
    Bool.false_eq_true, if_false, not_true, Bool.not_true, hrotEq, hposEq,
    ne_eq, not_true_eq_false]

/-- C3 witness: after applying `dMoved`, recomputing the diff for the
updated monitor and screen yields the neutral diff. -/
theorem diff_idempotent_witness :
    get_monitor_diff cfgStd (monStale.applyDiff dMoved)
      (srMoved.applyDiff 10 dMoved) =
      .ok (outStale.applyDiff dMoved, Diff.neutral) :=
  diff_idempotent cfgStd monStale srMoved allOk outStale dMoved 10 rfl rfl
    rfl rfl

end Randrd
